import Mathlib

/-!
Verification development for `tg_send.py`, a one-shot command-line Telegram
message sender.  The program is embedded shallowly as a deterministic
event-trace semantics: every observable action of the script (reading an
environment variable, reading stdin, printing a line, creating the client,
connecting, sending, disconnecting, and terminating the process with an exit
code) is recorded as an event.  The behaviour of the external Telethon client
library at its two awaited calls (`client.start` and `client.send_message`)
is abstracted by an oracle `LibOutcome` with three cases: the connect call
raises, the send call raises, or both succeed.

`sys.exit(1)` raises `SystemExit`, which is not caught by `except Exception`
but does run the `finally` block; the traces below reflect that order
(error print, then disconnect, then process termination).
-/

namespace TgSend

/-- Observable events of a single invocation, in execution order. -/
inductive Event where
  | readStdin : Event
  | printLine : String → Event
  | getEnv : String → Event
  | createClient : String → String → String → Event
  | connect : String → Event
  | send : String → String → Event
  | disconnect : Event
  | exitProc : Nat → Event
deriving DecidableEq

/-- The kind of an event, forgetting its payload. -/
inductive EKind where
  | readStdin | printLine | getEnv | createClient | connect | send | disconnect | exitProc
deriving DecidableEq

def Event.kind : Event → EKind
  | .readStdin => .readStdin
  | .printLine _ => .printLine
  | .getEnv _ => .getEnv
  | .createClient _ _ _ => .createClient
  | .connect _ => .connect
  | .send _ _ => .send
  | .disconnect => .disconnect
  | .exitProc _ => .exitProc

/-- The process environment, restricted to the three variables the script
reads.  `none` models an unset variable, `some ""` an empty one. -/
structure Env where
  api_id : Option String
  api_hash : Option String
  phone : Option String

/-- The parsed command-line arguments.  `session = none` models an
invocation in which the `-s`/`--session` flag was omitted; argparse's
`default='tg_session'` is applied where the parser would apply it. -/
structure Args where
  recipient : String
  message : String
  session : Option String

/-- Python truthiness of an optional string: `None` and `""` are falsy,
every other string is truthy.  This is what `all([api_id, api_hash, phone])`
tests on each element. -/
def truthy : Option String → Bool
  | none => false
  | some s => !(s == "")

/-- Whitespace characters recognised by Python's `str.strip()`
(ASCII fragment: space, tab, newline, carriage return, vertical tab,
form feed). -/
def isPyWhitespace (c : Char) : Bool :=
  c == ' ' || c == '\t' || c == '\n' || c == '\r' || c == Char.ofNat 11 || c == Char.ofNat 12

/-- Python `str.strip()` at the level of character lists: drop whitespace
from the front, then from the back. -/
def pyStripList (l : List Char) : List Char :=
  ((l.dropWhile isPyWhitespace).reverse.dropWhile isPyWhitespace).reverse

/-- Python `str.strip()` on strings. -/
def pyStrip (s : String) : String :=
  String.mk (pyStripList s.toList)

/-- The credentials returned by `load_config` on success. -/
structure Config where
  api_id : String
  api_hash : String
  phone : String

/-- The three `os.getenv` reads performed by `load_config`, in source order. -/
def getEnvEvents : List Event :=
  [Event.getEnv "TELEGRAM_API_ID", Event.getEnv "TELEGRAM_API_HASH",
   Event.getEnv "TELEGRAM_PHONE"]

/-- The fixed diagnostic block `load_config` prints before `sys.exit(1)`
when the credential check fails.  The last print's string carries the
leading newline of `print("\nGet API credentials ...")`. -/
def credDiagnostic : List Event :=
  [Event.printLine "Error: Missing required environment variables:",
   Event.printLine "  TELEGRAM_API_ID",
   Event.printLine "  TELEGRAM_API_HASH",
   Event.printLine "  TELEGRAM_PHONE",
   Event.printLine "\nGet API credentials from: https://my.telegram.org",
   Event.exitProc 1]

/-- `not all([api_id, api_hash, phone])` negated: the credential check of
`load_config`. -/
def credsOk (env : Env) : Bool :=
  truthy env.api_id && truthy env.api_hash && truthy env.phone

/-- `load_config` (tg_send.py lines 14-28): read the three environment
variables; if any is unset or empty, print the fixed diagnostic and exit 1
(second component `none`); otherwise return the credential triple. -/
def load_config (env : Env) : List Event × Option Config :=
  if credsOk env then
    (getEnvEvents, some ⟨env.api_id.getD "", env.api_hash.getD "", env.phone.getD ""⟩)
  else
    (getEnvEvents ++ credDiagnostic, none)

/-- Outcome of the external Telethon library at the two awaited calls:
`client.start(phone=...)` raises, `client.send_message(...)` raises, or
both succeed.  The payload is the exception text `str(e)`. -/
inductive LibOutcome where
  | connectFails : String → LibOutcome
  | sendFails : String → LibOutcome
  | success : LibOutcome
deriving DecidableEq

/-- `send_message_async` (tg_send.py lines 31-47): load the configuration
(exiting inside `load_config` on failure), create the client, then
`try: start / print / send / print  except Exception: print / sys.exit(1)
finally: disconnect`.  The Boolean is `true` when the invocation terminated
via `sys.exit` inside this call. -/
def send_message_async (env : Env) (lib : LibOutcome)
    (recipient message session_file : String) : List Event × Bool :=
  match load_config env with
  | (evs, none) => (evs, true)
  | (evs, some cfg) =>
    match lib with
    | .connectFails err =>
        (evs ++ [Event.createClient session_file cfg.api_id cfg.api_hash,
                 Event.connect cfg.phone,
                 Event.printLine ("Error sending message: " ++ err),
                 Event.disconnect, Event.exitProc 1], true)
    | .sendFails err =>
        (evs ++ [Event.createClient session_file cfg.api_id cfg.api_hash,
                 Event.connect cfg.phone,
                 Event.printLine ("Sending message to " ++ recipient ++ "..."),
                 Event.send recipient message,
                 Event.printLine ("Error sending message: " ++ err),
                 Event.disconnect, Event.exitProc 1], true)
    | .success =>
        (evs ++ [Event.createClient session_file cfg.api_id cfg.api_hash,
                 Event.connect cfg.phone,
                 Event.printLine ("Sending message to " ++ recipient ++ "..."),
                 Event.send recipient message,
                 Event.printLine "Message sent successfully!",
                 Event.disconnect], false)

/-- `send_message` (tg_send.py lines 50-52): the `asyncio.run` wrapper adds
no observable behaviour of its own. -/
def send_message (env : Env) (lib : LibOutcome)
    (recipient message session_file : String) : List Event × Bool :=
  send_message_async env lib recipient message session_file

/-- `main` (tg_send.py lines 55-88) after argument parsing: if the message
argument is `-`, read stdin and strip it, exiting 1 when the stripped text
is empty; then call `send_message` with the recipient, the resolved body and
the session label (argparse default `tg_session` when the flag is omitted). -/
def main (env : Env) (args : Args) (stdin : String) (lib : LibOutcome) :
    List Event × Bool :=
  if args.message == "-" then
    let m := pyStrip stdin
    if m == "" then
      ([Event.readStdin, Event.printLine "Error: No message provided via stdin",
        Event.exitProc 1], true)
    else
      let r := send_message env lib args.recipient m (args.session.getD "tg_session")
      (Event.readStdin :: r.1, r.2)
  else
    send_message env lib args.recipient args.message (args.session.getD "tg_session")

/-- The whole process: run `main`; if it returned normally (no `sys.exit`),
the interpreter exits 0. -/
def program (env : Env) (args : Args) (stdin : String) (lib : LibOutcome) :
    List Event :=
  let r := main env args stdin lib
  if r.2 then r.1 else r.1 ++ [Event.exitProc 0]

/-- All exit codes appearing in a trace (a trace of `program` has exactly
one, at its end). -/
def exitCodes (t : List Event) : List Nat :=
  t.filterMap fun e => match e with | .exitProc c => some c | _ => none

/-- The process exit code: the first (and only) `exitProc` event. -/
def exitCode (t : List Event) : Option Nat :=
  (exitCodes t).head?

/-- The lines printed to standard output, in order. -/
def outputLines (t : List Event) : List String :=
  t.filterMap fun e => match e with | .printLine s => some s | _ => none

/-- The send operations issued, as (recipient, message) pairs, in order. -/
def sends (t : List Event) : List (String × String) :=
  t.filterMap fun e => match e with | .send r m => some (r, m) | _ => none

/-- The session labels used to construct clients, in order. -/
def sessionsUsed (t : List Event) : List String :=
  t.filterMap fun e => match e with | .createClient s _ _ => some s | _ => none

/-- Number of disconnect (connection-release) events in a trace. -/
def disconnectCount (t : List Event) : Nat :=
  (t.filter fun e => e.kind == EKind.disconnect).length

/-- The message body `main` hands to `send_message`: the literal argument,
or the stripped stdin contents when the argument is `-`. -/
def resolvedBody (message stdin : String) : String :=
  if message == "-" then pyStrip stdin else message

/-- Phase of the linear control flow an event kind belongs to
(`none` for prints and process exit, which occur in several phases). -/
def phaseRank : EKind → Option Nat
  | .readStdin => some 0
  | .getEnv => some 1
  | .createClient => some 2
  | .connect => some 3
  | .send => some 4
  | .disconnect => some 5
  | _ => none

/-- A list of phase ranks is monotonically non-decreasing. -/
def rankMono : List Nat → Bool
  | a :: b :: rest => decide (a ≤ b) && rankMono (b :: rest)
  | _ => true

/-- The tail of the trace after a successful credential check: client
creation, connect attempt, and the outcome-dependent rest, ending in the
process exit.  Factored out of `send_message_async` plus `program`'s final
exit-0 for reuse in the branch-shape lemmas below. -/
def okTail (lib : LibOutcome) (recipient message session_file : String)
    (cfg : Config) : List Event :=
  match lib with
  | .connectFails err =>
      [Event.createClient session_file cfg.api_id cfg.api_hash,
       Event.connect cfg.phone,
       Event.printLine ("Error sending message: " ++ err),
       Event.disconnect, Event.exitProc 1]
  | .sendFails err =>
      [Event.createClient session_file cfg.api_id cfg.api_hash,
       Event.connect cfg.phone,
       Event.printLine ("Sending message to " ++ recipient ++ "..."),
       Event.send recipient message,
       Event.printLine ("Error sending message: " ++ err),
       Event.disconnect, Event.exitProc 1]
  | .success =>
      [Event.createClient session_file cfg.api_id cfg.api_hash,
       Event.connect cfg.phone,
       Event.printLine ("Sending message to " ++ recipient ++ "..."),
       Event.send recipient message,
       Event.printLine "Message sent successfully!",
       Event.disconnect, Event.exitProc 0]

/-- The credentials `load_config` returns when the check passes. -/
def envConfig (env : Env) : Config :=
  ⟨env.api_id.getD "", env.api_hash.getD "", env.phone.getD ""⟩

theorem load_config_ok (env : Env) (hc : credsOk env = true) :
    load_config env = (getEnvEvents, some (envConfig env)) := by
  simp [load_config, hc, envConfig]

theorem load_config_bad (env : Env) (hc : credsOk env = false) :
    load_config env = (getEnvEvents ++ credDiagnostic, none) := by
  simp [load_config, hc]

theorem prog_empty_stdin (env : Env) (args : Args) (stdin : String)
    (lib : LibOutcome) (hm : args.message = "-") (hs : pyStrip stdin = "") :
    program env args stdin lib =
      [Event.readStdin, Event.printLine "Error: No message provided via stdin",
       Event.exitProc 1] := by
  simp [program, main, hm, hs]

theorem prog_badcreds_dash (env : Env) (args : Args) (stdin : String)
    (lib : LibOutcome) (hm : args.message = "-") (hs : pyStrip stdin ≠ "")
    (hc : credsOk env = false) :
    program env args stdin lib =
      Event.readStdin :: (getEnvEvents ++ credDiagnostic) := by
  simp [program, main, send_message, send_message_async, load_config_bad env hc, hm, hs]

theorem prog_badcreds_lit (env : Env) (args : Args) (stdin : String)
    (lib : LibOutcome) (hm : args.message ≠ "-") (hc : credsOk env = false) :
    program env args stdin lib = getEnvEvents ++ credDiagnostic := by
  simp [program, main, send_message, send_message_async, load_config_bad env hc, hm]

theorem prog_ok_dash (env : Env) (args : Args) (stdin : String)
    (lib : LibOutcome) (hm : args.message = "-") (hs : pyStrip stdin ≠ "")
    (hc : credsOk env = true) :
    program env args stdin lib =
      Event.readStdin :: (getEnvEvents ++
        okTail lib args.recipient (pyStrip stdin)
          (args.session.getD "tg_session") (envConfig env)) := by
  cases lib <;>
    simp [program, main, send_message, send_message_async, load_config_ok env hc,
      hm, hs, okTail]

theorem prog_ok_lit (env : Env) (args : Args) (stdin : String)
    (lib : LibOutcome) (hm : args.message ≠ "-") (hc : credsOk env = true) :
    program env args stdin lib =
      getEnvEvents ++
        okTail lib args.recipient args.message
          (args.session.getD "tg_session") (envConfig env) := by
  cases lib <;>
    simp [program, main, send_message, send_message_async, load_config_ok env hc,
      hm, okTail]

theorem pyStripList_decomp (l : List Char) :
    ∃ pre post : List Char, l = pre ++ pyStripList l ++ post ∧
      pre.all isPyWhitespace = true ∧ post.all isPyWhitespace = true := by
  refine ⟨l.takeWhile isPyWhitespace,
    ((l.dropWhile isPyWhitespace).reverse.takeWhile isPyWhitespace).reverse,
    ?_, ?_, ?_⟩
  · conv_lhs => rw [← List.takeWhile_append_dropWhile isPyWhitespace l]
    rw [List.append_assoc]
    congr 1
    conv_lhs => rw [← List.reverse_reverse (l.dropWhile isPyWhitespace),
      ← List.takeWhile_append_dropWhile isPyWhitespace
        (l.dropWhile isPyWhitespace).reverse]
    rw [List.reverse_append, pyStripList]
  · simp only [List.all_eq_true]
    intro a ha
    exact List.mem_takeWhile_imp ha
  · simp only [List.all_eq_true, List.mem_reverse]
    intro a ha
    exact List.mem_takeWhile_imp ha

theorem pyStrip_eq_empty_of_ws (s : String)
    (h : s.toList.all isPyWhitespace = true) : pyStrip s = "" := by
  have hd : s.toList.dropWhile isPyWhitespace = [] := by
    rw [List.dropWhile_eq_nil_iff]
    intro x hx
    exact (List.all_eq_true.mp h) x hx
  unfold pyStrip pyStripList
  rw [hd]
  decide

/-- The process exit code of every invocation, in one formula: 0 exactly
when the credentials pass, the body resolution does not exit, and the
library reports success; 1 in every other case. -/
theorem exitCode_program (env : Env) (args : Args) (stdin : String)
    (lib : LibOutcome) :
    exitCode (program env args stdin lib) =
      if credsOk env = true ∧ ¬(args.message = "-" ∧ pyStrip stdin = "") ∧
          lib = LibOutcome.success then some 0 else some 1 := by
  by_cases hm : args.message = "-"
  · by_cases hs : pyStrip stdin = ""
    · rw [prog_empty_stdin env args stdin lib hm hs, if_neg (by simp [hm, hs])]
      decide
    · cases hcv : credsOk env
      · rw [prog_badcreds_dash env args stdin lib hm hs hcv, if_neg (by simp [hcv])]
        decide
      · rw [prog_ok_dash env args stdin lib hm hs hcv]
        cases lib with
        | connectFails err =>
            rw [if_neg (by simp)]
            simp [exitCode, exitCodes, okTail, getEnvEvents]
        | sendFails err =>
            rw [if_neg (by simp)]
            simp [exitCode, exitCodes, okTail, getEnvEvents]
        | success =>
            rw [if_pos ⟨rfl, fun h => hs h.2, rfl⟩]
            simp [exitCode, exitCodes, okTail, getEnvEvents]
  · cases hcv : credsOk env
    · rw [prog_badcreds_lit env args stdin lib hm hcv, if_neg (by simp [hcv])]
      decide
    · rw [prog_ok_lit env args stdin lib hm hcv]
      cases lib with
      | connectFails err =>
          rw [if_neg (by simp)]
          simp [exitCode, exitCodes, okTail, getEnvEvents]
      | sendFails err =>
          rw [if_neg (by simp)]
          simp [exitCode, exitCodes, okTail, getEnvEvents]
      | success =>
          rw [if_pos ⟨rfl, fun h => hm h.1, rfl⟩]
          simp [exitCode, exitCodes, okTail, getEnvEvents]

/-- C1: whenever any of the three credential environment variables is unset
or empty and the message argument does not require stdin resolution to fail
first, the program exits 1, prints the diagnostic naming the variables and
the pointer to my.telegram.org, and never creates a client nor attempts any
network operation (no connect, no send, no disconnect). -/
theorem missing_creds_rejected (env : Env) (args : Args) (stdin : String)
    (lib : LibOutcome) (hc : credsOk env = false)
    (hb : ¬(args.message = "-" ∧ pyStrip stdin = "")) :
    exitCode (program env args stdin lib) = some 1 ∧
    outputLines (program env args stdin lib) =
      ["Error: Missing required environment variables:",
       "  TELEGRAM_API_ID", "  TELEGRAM_API_HASH", "  TELEGRAM_PHONE",
       "\nGet API credentials from: https://my.telegram.org"] ∧
    ∀ e ∈ program env args stdin lib,
      e.kind ≠ EKind.createClient ∧ e.kind ≠ EKind.connect ∧
      e.kind ≠ EKind.send ∧ e.kind ≠ EKind.disconnect := by
  by_cases hm : args.message = "-"
  · have hs : pyStrip stdin ≠ "" := fun h => hb ⟨hm, h⟩
    rw [prog_badcreds_dash env args stdin lib hm hs hc]
    decide
  · rw [prog_badcreds_lit env args stdin lib hm hc]
    decide

/-- C1 witness: with `TELEGRAM_API_ID` unset and a literal message, the
program exits 1 without any network event. -/
theorem missing_creds_rejected_witness :
    credsOk ⟨none, some "h", some "p"⟩ = false ∧
    exitCode (program ⟨none, some "h", some "p"⟩ ⟨"alice", "hi", none⟩ ""
      LibOutcome.success) = some 1 :=
  ⟨by decide,
   (missing_creds_rejected ⟨none, some "h", some "p"⟩ ⟨"alice", "hi", none⟩ ""
     LibOutcome.success (by decide) (by decide)).1⟩

/-- C3: whenever the invocation reaches the client (credentials valid and
body resolution did not exit), the connection-release step runs exactly
once, for every library outcome — send succeeded, send raised, or the
connect call itself raised. -/
theorem disconnect_exactly_once (env : Env) (args : Args) (stdin : String)
    (lib : LibOutcome) (hc : credsOk env = true)
    (hb : ¬(args.message = "-" ∧ pyStrip stdin = "")) :
    disconnectCount (program env args stdin lib) = 1 := by
  by_cases hm : args.message = "-"
  · have hs : pyStrip stdin ≠ "" := fun h => hb ⟨hm, h⟩
    rw [prog_ok_dash env args stdin lib hm hs hc]
    cases lib <;> simp [disconnectCount, okTail, getEnvEvents, Event.kind]
  · rw [prog_ok_lit env args stdin lib hm hc]
    cases lib <;> simp [disconnectCount, okTail, getEnvEvents, Event.kind]

/-- C3 witness: a failing send still disconnects exactly once. -/
theorem disconnect_exactly_once_witness :
    credsOk ⟨some "1", some "h", some "p"⟩ = true ∧
    disconnectCount (program ⟨some "1", some "h", some "p"⟩ ⟨"alice", "hi", none⟩
      "" (LibOutcome.sendFails "boom")) = 1 :=
  ⟨by decide,
   disconnect_exactly_once ⟨some "1", some "h", some "p"⟩ ⟨"alice", "hi", none⟩
     "" (LibOutcome.sendFails "boom") (by decide) (by decide)⟩

/-- C4: when the message argument is `-` and stdin is all whitespace
(including empty), the program exits 1 with the empty-message diagnostic and
performs no network operation. -/
theorem empty_stdin_rejected (env : Env) (args : Args) (stdin : String)
    (lib : LibOutcome) (hm : args.message = "-")
    (hw : stdin.toList.all isPyWhitespace = true) :
    exitCode (program env args stdin lib) = some 1 ∧
    Event.printLine "Error: No message provided via stdin" ∈
      program env args stdin lib ∧
    ∀ e ∈ program env args stdin lib,
      e.kind ≠ EKind.createClient ∧ e.kind ≠ EKind.connect ∧
      e.kind ≠ EKind.send := by
  have hs : pyStrip stdin = "" := pyStrip_eq_empty_of_ws stdin hw
  rw [prog_empty_stdin env args stdin lib hm hs]
  decide

/-- C4 witness: `-` with whitespace-only stdin exits 1 with the diagnostic
and no network events. -/
theorem empty_stdin_rejected_witness :
    (" \t\n".toList.all isPyWhitespace = true) ∧
    exitCode (program ⟨some "1", some "h", some "p"⟩ ⟨"alice", "-", none⟩
      " \t\n" LibOutcome.success) = some 1 :=
  ⟨by decide,
   (empty_stdin_rejected ⟨some "1", some "h", some "p"⟩ ⟨"alice", "-", none⟩
     " \t\n" LibOutcome.success (by decide) (by decide)).1⟩

/-- C10: whenever the credential check of `load_config` fails — no matter
which of the three variables are missing or empty — the printed diagnostic
is the same fixed block listing all three variable names in a fixed order,
with no distinction between missing and present variables. -/
theorem cred_diagnostic_fixed (env : Env) (hc : credsOk env = false) :
    outputLines (load_config env).1 =
      ["Error: Missing required environment variables:",
       "  TELEGRAM_API_ID", "  TELEGRAM_API_HASH", "  TELEGRAM_PHONE",
       "\nGet API credentials from: https://my.telegram.org"] := by
  rw [load_config_bad env hc]
  decide

/-- C10 witness: with only `TELEGRAM_API_HASH` missing, the diagnostic
still lists all three variables. -/
theorem cred_diagnostic_fixed_witness :
    credsOk ⟨some "123", none, some "+1"⟩ = false ∧
    outputLines (load_config ⟨some "123", none, some "+1"⟩).1 =
      ["Error: Missing required environment variables:",
       "  TELEGRAM_API_ID", "  TELEGRAM_API_HASH", "  TELEGRAM_PHONE",
       "\nGet API credentials from: https://my.telegram.org"] :=
  ⟨by decide, cred_diagnostic_fixed ⟨some "123", none, some "+1"⟩ (by decide)⟩

/-- C2 counterexample: with all three credential variables unset, message
argument `-` and empty stdin, the program reads stdin and exits through the
empty-message diagnostic without ever reading a credential environment
variable and without printing the credential diagnostic — so body
resolution, including its failure exit, runs before credential validation
has even started, refuting the claimed validate-first order. -/
theorem validate_first_cex :
    Event.readStdin ∈
      program ⟨none, none, none⟩ ⟨"alice", "-", none⟩ "" LibOutcome.success ∧
    Event.printLine "Error: No message provided via stdin" ∈
      program ⟨none, none, none⟩ ⟨"alice", "-", none⟩ "" LibOutcome.success ∧
    Event.printLine "Error: Missing required environment variables:" ∉
      program ⟨none, none, none⟩ ⟨"alice", "-", none⟩ "" LibOutcome.success ∧
    (∀ e ∈ program ⟨none, none, none⟩ ⟨"alice", "-", none⟩ "" LibOutcome.success,
      e.kind ≠ EKind.getEnv) ∧
    exitCode (program ⟨none, none, none⟩ ⟨"alice", "-", none⟩ ""
      LibOutcome.success) = some 1 := by
  decide

/-- C2 amended: the control flow is strictly linear in the order
resolve-body → validate → connect → send → disconnect: in every trace the
phase ranks of the events are monotonically non-decreasing, and whenever the
message argument is `-` the stdin read is the very first event, before
credential validation. -/
theorem linear_flow (env : Env) (args : Args) (stdin : String)
    (lib : LibOutcome) :
    rankMono
      (((program env args stdin lib).map Event.kind).filterMap phaseRank) = true ∧
    (args.message = "-" →
      (program env args stdin lib).head? = some Event.readStdin) := by
  constructor
  · by_cases hm : args.message = "-"
    · by_cases hs : pyStrip stdin = ""
      · rw [prog_empty_stdin env args stdin lib hm hs]
        decide
      · cases hcv : credsOk env
        · rw [prog_badcreds_dash env args stdin lib hm hs hcv]
          decide
        · rw [prog_ok_dash env args stdin lib hm hs hcv]
          cases lib <;>
            simp [okTail, getEnvEvents, Event.kind, phaseRank] <;> decide
    · cases hcv : credsOk env
      · rw [prog_badcreds_lit env args stdin lib hm hcv]
        decide
      · rw [prog_ok_lit env args stdin lib hm hcv]
        cases lib <;>
          simp [okTail, getEnvEvents, Event.kind, phaseRank] <;> decide
  · intro hm
    by_cases hs : pyStrip stdin = ""
    · rw [prog_empty_stdin env args stdin lib hm hs]
      rfl
    · cases hcv : credsOk env
      · rw [prog_badcreds_dash env args stdin lib hm hs hcv]
        rfl
      · rw [prog_ok_dash env args stdin lib hm hs hcv]
        rfl

/-- C2 amended witness: a concrete `-` invocation whose first event is the
stdin read. -/
theorem linear_flow_witness :
    (program ⟨some "1", some "h", some "p"⟩ ⟨"alice", "-", none⟩ " hi "
      LibOutcome.success).head? = some Event.readStdin :=
  (linear_flow ⟨some "1", some "h", some "p"⟩ ⟨"alice", "-", none⟩ " hi "
    LibOutcome.success).2 rfl

/-- C5: with message argument `-`, the body handed to the single send is
stdin stripped of surrounding whitespace: the original stdin splits as
whitespace ++ body ++ whitespace, and in particular stdin
`"  Hello  \n"` resolves to `"Hello"`. -/
theorem stdin_body_trimmed (env : Env) (recipient stdin : String)
    (sess : Option String) (hc : credsOk env = true)
    (hb : pyStrip stdin ≠ "") :
    sends (program env ⟨recipient, "-", sess⟩ stdin LibOutcome.success) =
      [(recipient, pyStrip stdin)] ∧
    (∃ pre post : List Char,
       stdin.toList = pre ++ (pyStrip stdin).toList ++ post ∧
       pre.all isPyWhitespace = true ∧ post.all isPyWhitespace = true) ∧
    pyStrip "  Hello  \n" = "Hello" := by
  refine ⟨?_, ?_, by decide⟩
  · rw [prog_ok_dash env ⟨recipient, "-", sess⟩ stdin LibOutcome.success rfl hb hc]
    simp [sends, okTail, getEnvEvents]
  · exact pyStripList_decomp stdin.toList

/-- C5 witness: stdin `"  Hello  \n"` is sent as `"Hello"`. -/
theorem stdin_body_trimmed_witness :
    pyStrip "  Hello  \n" ≠ "" ∧
    sends (program ⟨some "1", some "h", some "p"⟩ ⟨"alice", "-", none⟩
      "  Hello  \n" LibOutcome.success) = [("alice", "Hello")] := by
  have h := stdin_body_trimmed ⟨some "1", some "h", some "p"⟩ "alice"
    "  Hello  \n" none (by decide) (by decide)
  refine ⟨by decide, ?_⟩
  rw [h.1]
  decide

/-- C6: the session label used to construct the client is the argparse
default `tg_session` when the `-s`/`--session` flag is omitted, and exactly
the supplied value when it is provided. -/
theorem session_label_spec (env : Env) (args : Args) (stdin : String)
    (lib : LibOutcome) (hc : credsOk env = true)
    (hb : ¬(args.message = "-" ∧ pyStrip stdin = "")) :
    sessionsUsed (program env args stdin lib) =
      [args.session.getD "tg_session"] ∧
    (args.session = none →
      sessionsUsed (program env args stdin lib) = ["tg_session"]) ∧
    (∀ v, args.session = some v →
      sessionsUsed (program env args stdin lib) = [v]) := by
  have key : sessionsUsed (program env args stdin lib) =
      [args.session.getD "tg_session"] := by
    by_cases hm : args.message = "-"
    · have hs : pyStrip stdin ≠ "" := fun h => hb ⟨hm, h⟩
      rw [prog_ok_dash env args stdin lib hm hs hc]
      cases lib <;> simp [sessionsUsed, okTail, getEnvEvents]
    · rw [prog_ok_lit env args stdin lib hm hc]
      cases lib <;> simp [sessionsUsed, okTail, getEnvEvents]
  refine ⟨key, ?_, ?_⟩
  · intro h
    rw [key, h]
    rfl
  · intro v h
    rw [key, h]
    rfl

/-- C6 witness: flag omitted gives `tg_session`; a supplied flag value is
used verbatim. -/
theorem session_label_spec_witness :
    sessionsUsed (program ⟨some "1", some "h", some "p"⟩ ⟨"alice", "hi", none⟩
      "" LibOutcome.success) = ["tg_session"] ∧
    sessionsUsed (program ⟨some "1", some "h", some "p"⟩
      ⟨"alice", "hi", some "work"⟩ "" LibOutcome.success) = ["work"] :=
  ⟨(session_label_spec ⟨some "1", some "h", some "p"⟩ ⟨"alice", "hi", none⟩ ""
      LibOutcome.success (by decide) (by decide)).2.1 rfl,
   (session_label_spec ⟨some "1", some "h", some "p"⟩ ⟨"alice", "hi", some "work"⟩
      "" LibOutcome.success (by decide) (by decide)).2.2 "work" rfl⟩

/-- C7: the exit code is always 0 or 1, and it is 0 exactly when the single
send completes successfully, i.e. when the credentials pass, the body
resolution does not exit, and neither connect nor send raises; each of the
three failure categories yields exit code 1. -/
theorem exit_code_spec (env : Env) (args : Args) (stdin : String)
    (lib : LibOutcome) :
    (exitCode (program env args stdin lib) = some 0 ∨
     exitCode (program env args stdin lib) = some 1) ∧
    (exitCode (program env args stdin lib) = some 0 ↔
      (credsOk env = true ∧ ¬(args.message = "-" ∧ pyStrip stdin = "") ∧
       lib = LibOutcome.success)) := by
  rw [exitCode_program env args stdin lib]
  by_cases h : credsOk env = true ∧ ¬(args.message = "-" ∧ pyStrip stdin = "") ∧
      lib = LibOutcome.success
  · rw [if_pos h]
    exact ⟨Or.inl rfl, ⟨fun _ => h, fun _ => rfl⟩⟩
  · rw [if_neg h]
    refine ⟨Or.inr rfl, ⟨fun hx => ?_, fun hx => absurd hx h⟩⟩
    exact absurd hx (by simp)

/-- C8: with valid credentials and a successful library outcome, the program
issues exactly one send, addressed to the recipient with the resolved body,
exits 0, and prints the recipient line followed by the success line. -/
theorem success_send_spec (env : Env) (args : Args) (stdin : String)
    (hc : credsOk env = true)
    (hb : ¬(args.message = "-" ∧ pyStrip stdin = "")) :
    sends (program env args stdin LibOutcome.success) =
      [(args.recipient, resolvedBody args.message stdin)] ∧
    exitCode (program env args stdin LibOutcome.success) = some 0 ∧
    outputLines (program env args stdin LibOutcome.success) =
      ["Sending message to " ++ args.recipient ++ "...",
       "Message sent successfully!"] := by
  by_cases hm : args.message = "-"
  · have hs : pyStrip stdin ≠ "" := fun h => hb ⟨hm, h⟩
    rw [prog_ok_dash env args stdin LibOutcome.success hm hs hc]
    refine ⟨?_, ?_, ?_⟩ <;>
      simp [sends, exitCode, exitCodes, outputLines, okTail, getEnvEvents,
        resolvedBody, hm]
  · rw [prog_ok_lit env args stdin LibOutcome.success hm hc]
    refine ⟨?_, ?_, ?_⟩ <;>
      simp [sends, exitCode, exitCodes, outputLines, okTail, getEnvEvents,
        resolvedBody, hm]

/-- C8 witness: a concrete successful invocation sends once and exits 0. -/
theorem success_send_spec_witness :
    sends (program ⟨some "1", some "h", some "p"⟩ ⟨"alice", "hi", none⟩ ""
      LibOutcome.success) = [("alice", "hi")] ∧
    exitCode (program ⟨some "1", some "h", some "p"⟩ ⟨"alice", "hi", none⟩ ""
      LibOutcome.success) = some 0 :=
  ⟨(success_send_spec ⟨some "1", some "h", some "p"⟩ ⟨"alice", "hi", none⟩ ""
      (by decide) (by decide)).1,
   (success_send_spec ⟨some "1", some "h", some "p"⟩ ⟨"alice", "hi", none⟩ ""
      (by decide) (by decide)).2.1⟩

/-- C9: any message argument other than `-` is passed to the send operation
verbatim — stdin is never read, the body is not trimmed and not checked for
emptiness, and the invocation is not rejected as an input error (the only
two printed lines are the sending and success lines, and the exit code
is 0). -/
theorem literal_message_verbatim (env : Env) (args : Args) (stdin : String)
    (hm : args.message ≠ "-") (hc : credsOk env = true) :
    sends (program env args stdin LibOutcome.success) =
      [(args.recipient, args.message)] ∧
    Event.readStdin ∉ program env args stdin LibOutcome.success ∧
    outputLines (program env args stdin LibOutcome.success) =
      ["Sending message to " ++ args.recipient ++ "...",
       "Message sent successfully!"] ∧
    exitCode (program env args stdin LibOutcome.success) = some 0 := by
  rw [prog_ok_lit env args stdin LibOutcome.success hm hc]
  refine ⟨?_, ?_, ?_, ?_⟩ <;>
    simp [sends, exitCode, exitCodes, outputLines, okTail, getEnvEvents]

/-- C9 witness: a whitespace-only literal message is sent unchanged with
exit code 0. -/
theorem literal_message_verbatim_witness :
    sends (program ⟨some "1", some "h", some "p"⟩ ⟨"alice", "  ", none⟩ ""
      LibOutcome.success) = [("alice", "  ")] ∧
    exitCode (program ⟨some "1", some "h", some "p"⟩ ⟨"alice", "  ", none⟩ ""
      LibOutcome.success) = some 0 :=
  ⟨(literal_message_verbatim ⟨some "1", some "h", some "p"⟩ ⟨"alice", "  ", none⟩
      "" (by decide) (by decide)).1,
   (literal_message_verbatim ⟨some "1", some "h", some "p"⟩ ⟨"alice", "  ", none⟩
      "" (by decide) (by decide)).2.2.2⟩

example : pyStrip "  Hello  \n" = "Hello" := by decide

example : program ⟨some "1", some "h", some "p"⟩ ⟨"alice", "hi", none⟩ "" .success =
    [Event.getEnv "TELEGRAM_API_ID", Event.getEnv "TELEGRAM_API_HASH",
     Event.getEnv "TELEGRAM_PHONE",
     Event.createClient "tg_session" "1" "h",
     Event.connect "p",
     Event.printLine "Sending message to alice...",
     Event.send "alice" "hi",
     Event.printLine "Message sent successfully!",
     Event.disconnect, Event.exitProc 0] := by decide

example : exitCode (program ⟨none, some "h", some "p"⟩ ⟨"alice", "hi", none⟩ "" .success)
    = some 1 := by decide

end TgSend
